import Mathlib

/-!
# Verification of the AI-VibeCodeEval evaluation engine

A shallow embedding, in Lean 4, of the scoring, guardrail, middleware and
storage logic of the AI-assisted coding-exam evaluator, together with
theorems settling the specification claims about that logic.

Conventions of the embedding:
* Python numbers are modelled as rationals (`ℚ`); `round(x, 2)` is modelled
  by `round2` (round-half-to-even at two decimals, as Python's `round`).
* Python strings are modelled by `String`; the `in` substring test is
  `strContains`; `str.lower()` is `pyLower` (ASCII lowering — the identity
  on the Korean text used by the guardrail keyword lists, as in CPython).
* `None` / optional values are `Option`; falsy-empty checks are explicit.
* Async effects (sleeps, awaits) are modelled by explicit state passing:
  the rate limiter's call history is threaded through a fold, the retry
  loop takes the per-attempt outcome as a function of the attempt index.
-/

/-- Round-half-to-even to an integer, as CPython's `round` on exact values. -/
def roundHalfEven (x : ℚ) : ℤ :=
  let n : ℤ := ⌊x⌋
  let r : ℚ := x - n
  if r < 1/2 then n
  else if 1/2 < r then n + 1
  else if n % 2 = 0 then n else n + 1

/-- Python's `round(x, 2)`. -/
def round2 (x : ℚ) : ℚ := (roundHalfEven (100 * x) : ℚ) / 100

/-- Substring test on character lists (`needle` occurs inside `haystack`). -/
def listContains (needle : List Char) : List Char → Bool
  | [] => needle.isEmpty
  | c :: rest => needle.isPrefixOf (c :: rest) || listContains needle rest

/-- Python's `needle in haystack` on strings. -/
def strContains (haystack needle : String) : Bool :=
  listContains needle.data haystack.data

/-- Python's `str.lower()` (ASCII range; identity on Hangul, as in CPython). -/
def pyLower (s : String) : String := String.mk (s.data.map Char.toLower)

/-- `any(kw in msg for kw in kws)`. -/
def containsAny (msg : String) (kws : List String) : Bool :=
  kws.any (fun kw => strContains msg kw)

/-! ## 7: final score aggregation (`aggregate_final_scores`) -/

/-- The `final_scores` record produced by node 7. -/
structure FinalScores where
  prompt_score : ℚ
  performance_score : ℚ
  correctness_score : ℚ
  total_score : ℚ
  grade : String
  deriving Repr, DecidableEq

/-- Embedding of `aggregate_final_scores`
(`src/app/langgraph/nodes/evaluators.py`): prompt score is the mean of the
non-null members of {holistic_flow_score, aggregate_turn_score} (0 if both
null), null performance/correctness count as 0, weights 0.25/0.25/0.50,
letter grade by thresholds on the (unrounded) total. -/
def aggregate_final_scores (holistic_flow_score aggregate_turn_score
    code_performance_score code_correctness_score : Option ℚ) : FinalScores :=
  let prompt_scores : List ℚ :=
    (match holistic_flow_score with | some s => [s] | none => []) ++
    (match aggregate_turn_score with | some s => [s] | none => [])
  let prompt_score : ℚ :=
    if prompt_scores.isEmpty then 0 else prompt_scores.sum / prompt_scores.length
  let perf_score : ℚ := code_performance_score.getD 0
  let correctness_score : ℚ := code_correctness_score.getD 0
  let total_score : ℚ :=
    prompt_score * (25/100) + perf_score * (25/100) + correctness_score * (50/100)
  let grade : String :=
    if 90 ≤ total_score then "A"
    else if 80 ≤ total_score then "B"
    else if 70 ≤ total_score then "C"
    else if 60 ≤ total_score then "D"
    else "F"
  { prompt_score := round2 prompt_score
    performance_score := round2 perf_score
    correctness_score := round2 correctness_score
    total_score := round2 total_score
    grade := grade }

/-- Spec-side mean over the non-null members of the two prompt sub-scores. -/
def specPromptMean : Option ℚ → Option ℚ → ℚ
  | none, none => 0
  | some a, none => a
  | none, some b => b
  | some a, some b => (a + b) / 2

/-- Spec-side weighted total. -/
def specTotal (prompt perf corr : ℚ) : ℚ :=
  (1/4) * prompt + (1/4) * perf + (1/2) * corr

/-! ## 6c/6d: code correctness scoring (`_eval_code_correctness_impl`, `JudgeWorker`) -/

/-- Status field of a `JudgeResult` queue message. -/
inductive JudgeStatus where
  | success | timeout | error | memory_limit
  deriving Repr, DecidableEq

/-- Embedding of the test-case branch of `JudgeWorker._execute_task`
(`src/app/application/workers/judge_worker.py`): after running all test
cases it aggregates `status = "success"` iff every case passed, else
`"error"`.  The per-case verdicts are folded into a textual `output` blob;
no structured per-case detail is carried by the `JudgeResult`. -/
def worker_aggregate_status (passed_count total_count : ℕ) : JudgeStatus :=
  if passed_count = total_count then JudgeStatus.success else JudgeStatus.error

/-- What the correctness node decides once a completed result is available:
either a concrete score or a fall-through to the LLM-judged rubric. -/
inductive CorrectnessOutcome where
  | scored (code_correctness_score : ℚ) (test_cases_total : ℕ)
  | llmFallback
  deriving Repr, DecidableEq

/-- Embedding of the `status == "completed"` branch of
`_eval_code_correctness_impl`
(`src/app/domain/langgraph/nodes/holistic_evaluator/correctness.py`):
`success` with test cases → score 100; `success` without test cases →
score 50; any other completed status → break out to the LLM fallback. -/
def correctness_on_completed (status : JudgeStatus) (num_test_cases : ℕ) :
    CorrectnessOutcome :=
  if status = JudgeStatus.success ∧ num_test_cases ≠ 0 then
    CorrectnessOutcome.scored (round2 100) num_test_cases
  else if status = JudgeStatus.success ∧ num_test_cases = 0 then
    CorrectnessOutcome.scored (round2 50) 0
  else CorrectnessOutcome.llmFallback

/-- Spec-side pass-ratio score: `100 × passed / total`. -/
def specPassRatioScore (passed total : ℕ) : ℚ := 100 * (passed : ℚ) / (total : ℚ)

/-! ## 2: intent analyzer Layer-1 keyword prefilter (`quick_answer_detection`) -/

/-- Structural-request keywords that defer to the Layer-2 LLM. -/
def safe_structural_keywords : List String :=
  ["인터페이스", "함수 정의", "함수 선언", "구조", "틀", "껍데기",
   "의사코드", "수도코드", "pseudo", "interface", "structure", "skeleton"]

/-- The direct-answer words checked inside rule 1 (inline in the source). -/
def structural_rule_block_keywords : List String := ["정답", "풀이", "answer", "solution"]

/-- Hard direct-answer request patterns (always-block list). -/
def direct_answer_patterns : List String :=
  ["정답 코드", "정답 알려줘", "답 코드", "완성된 코드", "핵심 코드", "로직 전체",
   "점화식 알려줘", "재귀 구조", "핵심 로직", "dp[x][vis]", "점화식은", "재귀는",
   "알고리즘 전체",
   "complete solution", "answer code", "entire code", "whole solution",
   "complete algorithm", "recurrence relation", "dp formula"]

/-- The three context-sensitive whole-code patterns (the dict keys; all
three map to the same code-generation keyword list in the source). -/
def context_sensitive_patterns : List String := ["전체 코드", "full code", "whole code"]

/-- Code-generation phrases looked for in the recent history (shared value
of the context-sensitive pattern dict). -/
def code_generation_keywords : List String :=
  ["코드 작성", "코드 생성", "코드를 작성", "코드를 생성", "작성해주신 코드"]

/-- Hint-intent keywords (learning-guide requests). -/
def hint_keywords : List String :=
  ["힌트", "가이드", "방향", "수립", "어떻게", "학습", "hint", "guide", "direction"]

/-- Direct-answer request verbs. -/
def direct_answer_keywords : List String :=
  ["알려줘", "알려", "뭐야", "뭐", "정답", "tell me", "what is", "show me"]

/-- Answer-related terms for the problem-specific rule. -/
def answer_related_keywords : List String :=
  ["점화식", "recurrence", "재귀", "로직", "알고리즘", "solution", "code"]

/-- The TSP fallback keyword list inferred for problem 2098. -/
def tsp_fallback_keywords : List String :=
  ["외판원", "tsp", "traveling salesman", "dp[현재도시][방문도시]", "방문 상태"]

/-- The `problem_context` dict handed to the prefilter by `intent_analyzer`. -/
structure ProblemContextInfo where
  problem_id : String
  problem_name : String
  keywords : List String
  deriving Repr, DecidableEq

/-- Embedding of the `problem_keywords` accumulation of
`quick_answer_detection`: explicit context keywords, else the TSP
fallback inference from problem id/name, else none. -/
def problem_keywords_of : Option ProblemContextInfo → List String
  | none => []
  | some c =>
    if c.keywords ≠ [] then c.keywords
    else
      if strContains (pyLower c.problem_id) "2098" ||
         strContains (pyLower c.problem_name) "tsp" ||
         strContains (pyLower c.problem_name) "외판원" then
        tsp_fallback_keywords
      else []

/-- A Layer-1 block decision (the dict returned by `quick_answer_detection`;
`status` is always `"BLOCKED"` and `block_reason` always `"DIRECT_ANSWER"`
in the source, but both are carried as data). -/
structure BlockDecision where
  status : String
  block_reason : String
  is_submission_request : Bool
  guardrail_passed : Bool
  violation_message : String
  deriving Repr, DecidableEq

/-- `conversation_history` scan of rule 4: any code-generation phrase in the
most recent 3 history entries (an empty history is falsy in the source). -/
def history_has_code_generation (hist : List String) : Bool :=
  let recent := if 3 < hist.length then hist.drop (hist.length - 3) else hist
  recent.any (fun turn => containsAny (pyLower turn) code_generation_keywords)

/-- Rules 2–5 of `quick_answer_detection`
(`src/app/domain/langgraph/nodes/intent_analyzer.py`), reached only when
rule 1 did not already pass the message; `ml` is the lowercased message.
Rules in source order, first match deciding.  Two faithful collapses of
source loops: the three context-sensitive patterns share one
code-generation keyword list, so rule 4 is a single combined test; in
rule 5 the per-keyword checks do not depend on the matched keyword, so
the loop over `problem_keywords` reduces to an existence test. -/
def quick_rules_2_to_5 (ml : String)
    (problem_context : Option ProblemContextInfo)
    (conversation_history : List String) : Option BlockDecision :=
  -- rule 2: hard direct-answer pattern without hint intent → block
  if containsAny ml direct_answer_patterns && !containsAny ml hint_keywords then
    some { status := "BLOCKED", block_reason := "DIRECT_ANSWER",
           is_submission_request := false, guardrail_passed := false,
           violation_message := "정답 코드 요청 패턴 감지" }
  -- rule 3: recurrence-equation term + direct-answer verb, no hint intent
  else if (strContains ml "점화식" || strContains ml "recurrence") &&
          containsAny ml direct_answer_keywords && !containsAny ml hint_keywords then
    some { status := "BLOCKED", block_reason := "DIRECT_ANSWER",
           is_submission_request := false, guardrail_passed := false,
           violation_message := "점화식 직접 요청 패턴 감지" }
  -- rule 4: whole-code request with no recent code-generation context
  else if containsAny ml context_sensitive_patterns &&
          !history_has_code_generation conversation_history then
    some { status := "BLOCKED", block_reason := "DIRECT_ANSWER",
           is_submission_request := false, guardrail_passed := false,
           violation_message := "전체 코드 요청 패턴 감지 (이전 대화에 코드 생성 요청 없음)" }
  -- rule 5: problem-specific keyword together with answer-related terms
  else
    let pk := problem_keywords_of problem_context
    if pk.any (fun kw => strContains ml (pyLower kw)) then
      if containsAny ml answer_related_keywords then
        if !containsAny ml hint_keywords then
          some { status := "BLOCKED", block_reason := "DIRECT_ANSWER",
                 is_submission_request := false, guardrail_passed := false,
                 violation_message := "문제 특정 정답 요청 패턴 감지" }
        else none
      else if containsAny ml direct_answer_keywords then
        if !containsAny ml hint_keywords then
          some { status := "BLOCKED", block_reason := "DIRECT_ANSWER",
                 is_submission_request := false, guardrail_passed := false,
                 violation_message := "문제 특정 정답 요청 패턴 감지" }
        else none
      else none
    else none

/-- Embedding of `quick_answer_detection` itself: lowercase the message,
apply rule 1 (structural request with no direct-answer word → pass), and
otherwise fall through to rules 2–5. -/
def quick_answer_detection (message : String)
    (problem_context : Option ProblemContextInfo)
    (conversation_history : List String) : Option BlockDecision :=
  let ml := pyLower message
  if containsAny ml safe_structural_keywords &&
     !containsAny ml structural_rule_block_keywords then
    none
  else quick_rules_2_to_5 ml problem_context conversation_history

/-- What the `intent_analyzer` node decides before any LLM involvement. -/
inductive IntentDecision where
  | emptyPass (intent_status : String) (is_guardrail_failed : Bool)
  | blockedL1 (intent_status : String) (is_guardrail_failed : Bool)
      (guardrail_message : String) (is_submitted : Bool)
  | deferToLLM
  deriving Repr, DecidableEq

/-- Embedding of the entry of `intent_analyzer`
(`src/app/domain/langgraph/nodes/intent_analyzer.py`): an empty (or
missing) `human_message` short-circuits to `PASSED_HINT`; otherwise the
Layer-1 prefilter either blocks with `FAILED_GUARDRAIL` or defers to the
Layer-2 LLM classifier. -/
def intent_analyzer_entry (human_message : Option String)
    (problem_context : ProblemContextInfo)
    (conversation_history : List String) : IntentDecision :=
  let m := human_message.getD ""
  if m = "" then
    IntentDecision.emptyPass "PASSED_HINT" false
  else
    match quick_answer_detection m (some problem_context) conversation_history with
    | some d =>
        IntentDecision.blockedL1 "FAILED_GUARDRAIL" true
          d.violation_message d.is_submission_request
    | none => IntentDecision.deferToLLM

/-! ## Middleware: rate limiting (`RateLimitingMiddleware`) -/

/-- Embedding of `RateLimitingMiddleware._clean_old_calls`: keep the
timestamps strictly newer than `now - period`. -/
def clean_old_calls (period : ℚ) (history : List ℚ) (now : ℚ) : List ℚ :=
  history.filter (fun t => decide (now - period < t))

/-- Embedding of `RateLimitingMiddleware._check_rate_limit` for one key:
returns the wait time and the updated call history.  When the cleaned
window is full the call is told to wait until the oldest recorded call
leaves the window and the history is left unchanged; otherwise the call
is recorded at `now` and admitted immediately.  (The `none` branch of the
minimum cannot be reached when `max_calls ≥ 1`.) -/
def check_rate_limit (max_calls : ℕ) (period : ℚ) (history : List ℚ)
    (now : ℚ) : ℚ × List ℚ :=
  let h := clean_old_calls period history now
  if max_calls ≤ h.length then
    match h.min? with
    | some oldest =>
        let wait_time := period - (now - oldest)
        if 0 < wait_time then (wait_time, h) else (0, h ++ [now])
    | none => (0, h ++ [now])
  else (0, h ++ [now])

/-- Embedding of the wrapped `rate_limited_chain`: compute the wait time,
sleep for it, then run the inner chain — so the inner call executes at
`arrival + wait`.  The history after the call is exactly what
`_check_rate_limit` left behind (a delayed call is never re-recorded). -/
def rate_limited_call (max_calls : ℕ) (period : ℚ) (history : List ℚ)
    (arrival : ℚ) : ℚ × List ℚ :=
  let r := check_rate_limit max_calls period history arrival
  (arrival + r.1, r.2)

/-- Run a sequence of calls (given by their arrival times, in order)
through the wrapper, threading the middleware's history; returns the
execution times. -/
def run_rate_limited (max_calls : ℕ) (period : ℚ) (arrivals : List ℚ) : List ℚ :=
  (arrivals.foldl
      (fun (acc : List ℚ × List ℚ) arrival =>
        let r := rate_limited_call max_calls period acc.2 arrival
        (acc.1 ++ [r.1], r.2))
      ([], [])).1

/-- Number of executions falling inside the half-open window `(t, t + period]`. -/
def countInWindow (period : ℚ) (times : List ℚ) (t : ℚ) : ℕ :=
  (times.filter (fun x => decide (t < x ∧ x ≤ t + period))).length

/-! ## Middleware: retry (`RetryMiddleware`) -/

/-- A Python exception as the retry middleware sees it: an opaque class
identity (queried through `isinstance`, abstracted below as a Boolean
class-match function) and a message. -/
structure PyException where
  message : String
  deriving Repr, DecidableEq

/-- The transient-error keywords of `_should_retry`. -/
def retry_error_keywords : List String := ["rate", "quota", "timeout"]

/-- Embedding of `RetryMiddleware._should_retry` (with the default
`retry_condition = None`): stop at the attempt cap; otherwise retry when
the exception class matches the configured classes (`class_match`,
abstracting `isinstance(e, self.retry_exceptions)`), or failing that when
the lowercased message mentions rate/quota/timeout. -/
def should_retry (max_retries : ℕ) (class_match : PyException → Bool)
    (e : PyException) (attempt : ℕ) : Bool :=
  if max_retries ≤ attempt then false
  else if !class_match e then
    containsAny (pyLower e.message) retry_error_keywords
  else true

/-- Embedding of `RetryMiddleware._calculate_delay`: strategy-dependent
backoff, clamped by `max_delay`. -/
def calculate_delay (backoff_strategy : String) (initial_delay max_delay : ℚ)
    (attempt : ℕ) : ℚ :=
  let delay :=
    if backoff_strategy = "exponential" then initial_delay * 2 ^ attempt
    else if backoff_strategy = "linear" then initial_delay * (attempt + 1)
    else initial_delay
  min delay max_delay

/-- Embedding of the `for attempt in range(max_retries + 1)` loop of
`retry_chain`; `chain i` is the outcome of the i-th attempt of the inner
chain, `remaining` the number of loop iterations still available after
this one (`max_retries - attempt` at every call).  The `remaining = 0`
fallthrough is the dead post-loop `raise last_exception` of the source. -/
def retry_loop (max_retries : ℕ) (class_match : PyException → Bool)
    (chain : ℕ → Except PyException α) : ℕ → ℕ → Except PyException α
  | attempt, remaining =>
    match chain attempt with
    | Except.ok v => Except.ok v
    | Except.error e =>
      if should_retry max_retries class_match e attempt then
        match remaining with
        | 0 => Except.error e
        | r + 1 => retry_loop max_retries class_match chain (attempt + 1) r
      else Except.error e

/-- Embedding of the wrapped `retry_chain` entry point. -/
def retry_run (max_retries : ℕ) (class_match : PyException → Bool)
    (chain : ℕ → Except PyException α) : Except PyException α :=
  retry_loop max_retries class_match chain 0 max_retries

/-! ## 3: writer failure taxonomy (`writer_llm` except-branch) -/

/-- Writer node statuses (`WriterResponseStatus`). -/
inductive WriterStatus where
  | SUCCESS | FAILED_RATE_LIMIT | FAILED_THRESHOLD | FAILED_TECHNICAL
  | FAILED_GUARDRAIL | FAILED_WRITING
  deriving Repr, DecidableEq

/-- The partial state returned by the writer when its chain raised. -/
structure WriterFailureUpdate where
  ai_message : Option String
  writer_status : WriterStatus
  writer_error : String
  error_message : String
  deriving Repr, DecidableEq

/-- Embedding of the `except` branch of `writer_llm`
(`src/app/domain/langgraph/nodes/writer.py`): classify the exception text
(lowercased) into rate-limit / threshold / technical, return a structured
update with `ai_message = None` and the error recorded — never re-raise. -/
def writer_on_exception (err_text : String) : WriterFailureUpdate :=
  let error_msg := pyLower err_text
  let status :=
    if strContains error_msg "rate" || strContains error_msg "quota" then
      WriterStatus.FAILED_RATE_LIMIT
    else if strContains error_msg "context" || strContains error_msg "token" then
      WriterStatus.FAILED_THRESHOLD
    else WriterStatus.FAILED_TECHNICAL
  { ai_message := none,
    writer_status := status,
    writer_error := err_text,
    error_message := "답변 생성 중 오류가 발생했습니다: " ++ err_text }

/-! ## Message storage (`MessageStorageService.save_message`) -/

/-- Message roles in the durable store (`PromptRoleEnum`). -/
inductive PromptRole where
  | USER | AI
  deriving Repr, DecidableEq

/-- A row of `prompt_messages`. -/
structure StoredMessage where
  id : ℕ
  session_id : ℕ
  turn : ℕ
  role : PromptRole
  content : String
  deriving Repr, DecidableEq

/-- The dict returned by `save_message`. -/
structure SaveMessageResult where
  session_id : ℕ
  message_id : ℕ
  turn : ℕ
  success : Bool
  deriving Repr, DecidableEq

/-- `COALESCE(MAX(turn), 0) + 1` over one session's rows. -/
def next_turn (db : List StoredMessage) (session : ℕ) : ℕ :=
  (db.filter (fun m => m.session_id == session)).foldl
    (fun acc m => max acc m.turn) 0 + 1

/-- Embedding of `MessageStorageService.save_message`
(`src/app/application/services/message_storage_service.py`), durable part,
for an already-resolved session: with an explicit `turn`, a duplicate
`(session, turn, role)` row short-circuits to the existing row's id with
no insertion; otherwise (explicit fresh turn, or `turn = None` with the
atomic `MAX(turn)+1` subquery) a new row is appended. -/
def save_message (db : List StoredMessage) (next_id : ℕ) (session : ℕ)
    (turn : Option ℕ) (role : PromptRole) (content : String) :
    List StoredMessage × SaveMessageResult :=
  match turn with
  | some t =>
    match db.find? (fun m =>
        m.session_id == session && m.turn == t && m.role == role) with
    | some existing =>
        (db, { session_id := session, message_id := existing.id,
               turn := existing.turn, success := true })
    | none =>
        (db ++ [{ id := next_id, session_id := session, turn := t,
                  role := role, content := content }],
         { session_id := session, message_id := next_id, turn := t,
           success := true })
  | none =>
    let t := next_turn db session
    (db ++ [{ id := next_id, session_id := session, turn := t,
              role := role, content := content }],
     { session_id := session, message_id := next_id, turn := t,
       success := true })

/-! ## 4.4: turn log aggregation (`aggregate_turn_log`) -/

/-- The parts of the aggregated turn log the claims are about. -/
structure TurnLogOut where
  turn_score : ℚ
  is_guardrail_failed : Bool
  num_evaluations : ℕ
  deriving Repr, DecidableEq

/-- Embedding of `aggregate_turn_log`
(`src/app/langgraph/subgraph_eval_turn.py`): collect the `average` of each
present rubric-evaluator result (the seven optional slots of the state), a
guardrail-failed turn forces the raw score to 0, otherwise the raw score
is the mean of the collected averages (0 when none); the logged
`turn_score` is the raw score scaled to 0–100 and rounded. -/
def aggregate_turn_log (eval_slots : List (Option ℚ))
    (is_guardrail_failed : Bool) : TurnLogOut :=
  let all_averages := eval_slots.filterMap id
  let turn_score : ℚ :=
    if is_guardrail_failed then 0
    else if all_averages.isEmpty then 0
    else all_averages.sum / all_averages.length
  { turn_score := round2 (turn_score * 10),
    is_guardrail_failed := is_guardrail_failed,
    num_evaluations := all_averages.length }

/-! ## Helper lemmas -/

lemma aggregate_final_scores_closed (hfs ats cps ccs : Option ℚ) :
    aggregate_final_scores hfs ats cps ccs =
      { prompt_score := round2 (specPromptMean hfs ats),
        performance_score := round2 (cps.getD 0),
        correctness_score := round2 (ccs.getD 0),
        total_score :=
          round2 (specTotal (specPromptMean hfs ats) (cps.getD 0) (ccs.getD 0)),
        grade :=
          if 90 ≤ specTotal (specPromptMean hfs ats) (cps.getD 0) (ccs.getD 0)
          then "A"
          else if 80 ≤ specTotal (specPromptMean hfs ats) (cps.getD 0) (ccs.getD 0)
          then "B"
          else if 70 ≤ specTotal (specPromptMean hfs ats) (cps.getD 0) (ccs.getD 0)
          then "C"
          else if 60 ≤ specTotal (specPromptMean hfs ats) (cps.getD 0) (ccs.getD 0)
          then "D"
          else "F" } := by
  rcases hfs with _ | a <;> rcases ats with _ | b <;>
    simp only [aggregate_final_scores, specPromptMean, specTotal, Option.getD] <;>
    norm_num <;> ring_nf <;> exact ⟨trivial, trivial⟩

lemma retry_loop_all_fail (cm : PyException → Bool)
    (chain : ℕ → Except PyException String) (errs : ℕ → PyException)
    (hfail : ∀ i, chain i = Except.error (errs i))
    (hmatch : ∀ i, cm (errs i) = true) :
    ∀ (remaining attempt mr : ℕ), attempt + remaining = mr →
      retry_loop mr cm chain attempt remaining = Except.error (errs mr) := by
  intro remaining
  induction remaining with
  | zero =>
    intro attempt mr h
    rw [retry_loop, hfail]
    have : mr ≤ attempt := by omega
    simp [should_retry, this, ← h]
  | succ r ih =>
    intro attempt mr h
    rw [retry_loop, hfail]
    have hlt : ¬ (mr ≤ attempt) := by omega
    simp [should_retry, hlt, hmatch]
    exact ih (attempt + 1) mr (by omega)

lemma run_rate_limited_go_length (max_calls : ℕ) (period : ℚ) :
    ∀ (arrivals : List ℚ) (acc : List ℚ × List ℚ),
      (arrivals.foldl
        (fun (acc : List ℚ × List ℚ) arrival =>
          let r := rate_limited_call max_calls period acc.2 arrival
          (acc.1 ++ [r.1], r.2)) acc).1.length = acc.1.length + arrivals.length := by
  intro arrivals
  induction arrivals with
  | nil => intro acc; simp
  | cons a rest ih =>
    intro acc
    rw [List.foldl_cons, ih]
    simp
    omega

/-! ## Claim theorems -/

/-- Claim C1: the final aggregation node computes `prompt_score` as the
arithmetic mean of the non-null members of
{holistic_flow_score, aggregate_turn_score} (0 when both are null),
`total_score = 0.25·prompt + 0.25·performance + 0.50·correctness` with
null sub-scores counted as 0, and assigns the letter grade A/B/C/D/F at
the 90/80/70/60 thresholds of the computed total (the reported values are
its two-decimal roundings). -/
theorem final_aggregation_contract (hfs ats cps ccs : Option ℚ) :
    (aggregate_final_scores hfs ats cps ccs).prompt_score =
      round2 (specPromptMean hfs ats) ∧
    (aggregate_final_scores hfs ats cps ccs).total_score =
      round2 (specTotal (specPromptMean hfs ats) (cps.getD 0) (ccs.getD 0)) ∧
    (90 ≤ specTotal (specPromptMean hfs ats) (cps.getD 0) (ccs.getD 0) →
      (aggregate_final_scores hfs ats cps ccs).grade = "A") ∧
    (80 ≤ specTotal (specPromptMean hfs ats) (cps.getD 0) (ccs.getD 0) →
     specTotal (specPromptMean hfs ats) (cps.getD 0) (ccs.getD 0) < 90 →
      (aggregate_final_scores hfs ats cps ccs).grade = "B") ∧
    (70 ≤ specTotal (specPromptMean hfs ats) (cps.getD 0) (ccs.getD 0) →
     specTotal (specPromptMean hfs ats) (cps.getD 0) (ccs.getD 0) < 80 →
      (aggregate_final_scores hfs ats cps ccs).grade = "C") ∧
    (60 ≤ specTotal (specPromptMean hfs ats) (cps.getD 0) (ccs.getD 0) →
     specTotal (specPromptMean hfs ats) (cps.getD 0) (ccs.getD 0) < 70 →
      (aggregate_final_scores hfs ats cps ccs).grade = "D") ∧
    (specTotal (specPromptMean hfs ats) (cps.getD 0) (ccs.getD 0) < 60 →
      (aggregate_final_scores hfs ats cps ccs).grade = "F") := by
  rw [aggregate_final_scores_closed]
  refine ⟨rfl, rfl, ?_, ?_, ?_, ?_, ?_⟩
  · intro h1
    simp only [if_pos h1]
  · intro h1 h2
    rw [if_neg (by linarith), if_pos h1]
  · intro h1 h2
    rw [if_neg (by linarith), if_neg (by linarith), if_pos h1]
  · intro h1 h2
    rw [if_neg (by linarith), if_neg (by linarith), if_neg (by linarith), if_pos h1]
  · intro h1
    rw [if_neg (by linarith), if_neg (by linarith), if_neg (by linarith),
      if_neg (by linarith)]

/-- Witness for C1: flow 90 and turn 100 average to 95; with performance 80
and correctness 95 the total is 91.25, graded A. -/
theorem final_aggregation_contract_witness :
    (aggregate_final_scores (some 90) (some 100) (some 80) (some 95)).grade = "A" :=
  (final_aggregation_contract (some 90) (some 100) (some 80) (some 95)).2.2.1
    (by norm_num [specTotal, specPromptMean])

/-- Counterexample to C2 as stated: with 1 of 2 test cases passing, the
worker reports `error`, and the correctness node neither scores
`100 × 1/2 = 50` nor the binary 0 — it falls through to the LLM-judged
rubric. -/
theorem correctness_pass_ratio_counterexample :
    worker_aggregate_status 1 2 = JudgeStatus.error ∧
    correctness_on_completed (worker_aggregate_status 1 2) 2 =
      CorrectnessOutcome.llmFallback ∧
    specPassRatioScore 1 2 = 50 ∧
    correctness_on_completed (worker_aggregate_status 1 2) 2 ≠
      CorrectnessOutcome.scored (specPassRatioScore 1 2) 2 ∧
    correctness_on_completed (worker_aggregate_status 1 2) 2 ≠
      CorrectnessOutcome.scored 0 2 := by
  have hw : worker_aggregate_status 1 2 = JudgeStatus.error := by
    norm_num [worker_aggregate_status]
  have hc : correctness_on_completed JudgeStatus.error 2 =
      CorrectnessOutcome.llmFallback := by
    simp [correctness_on_completed]
  refine ⟨hw, by rw [hw, hc], by norm_num [specPassRatioScore], ?_, ?_⟩ <;>
    rw [hw, hc] <;> simp

/-- Claim C2 (amended): when execution completes with every test case
passing the node scores 100 — which then coincides with the pass ratio
`100 × passed / total`; when any test case fails the node does not score a
ratio but falls back to the LLM-judged rubric; with no test cases at all
a successful run scores 50. -/
theorem correctness_binary_or_fallback (passed total : ℕ) :
    (passed = total → 0 < total →
      correctness_on_completed (worker_aggregate_status passed total) total =
        CorrectnessOutcome.scored 100 total ∧
      specPassRatioScore passed total = 100) ∧
    (passed ≠ total →
      correctness_on_completed (worker_aggregate_status passed total) total =
        CorrectnessOutcome.llmFallback) ∧
    (correctness_on_completed JudgeStatus.success 0 =
      CorrectnessOutcome.scored 50 0) := by
  refine ⟨?_, ?_, ?_⟩
  · intro heq hpos
    have h0 : total ≠ 0 := by omega
    have hws : worker_aggregate_status passed total = JudgeStatus.success := by
      simp [worker_aggregate_status, heq]
    have ht : (total : ℚ) ≠ 0 := Nat.cast_ne_zero.mpr h0
    refine ⟨?_, ?_⟩
    · rw [hws]
      have hcc : correctness_on_completed JudgeStatus.success total =
          CorrectnessOutcome.scored (round2 100) total := by
        simp [correctness_on_completed, h0]
      rw [hcc]
      simp only [CorrectnessOutcome.scored.injEq]
      exact ⟨by norm_num [round2, roundHalfEven], trivial⟩
    · rw [specPassRatioScore, heq]
      field_simp
  · intro hne
    simp [worker_aggregate_status, correctness_on_completed, hne]
  · norm_num [correctness_on_completed, round2, roundHalfEven]

/-- Witness for C2 (amended): all 3 of 3 cases pass → score 100 = ratio. -/
theorem correctness_binary_or_fallback_witness :
    correctness_on_completed (worker_aggregate_status 3 3) 3 =
      CorrectnessOutcome.scored 100 3 ∧
    specPassRatioScore 3 3 = 100 :=
  (correctness_binary_or_fallback 3 3).1 rfl (by norm_num)

/-- Counterexample to C3 as stated: the message `"구조 없이 완성된 코드 줘"`
contains the hard block pattern `"완성된 코드"` and no hint-intent word,
yet Layer 1 passes it (no block) because the structural keyword `"구조"`
fires rule 1 first and the message has none of 정답/풀이/answer/solution. -/
theorem hard_block_structural_escape_counterexample :
    containsAny (pyLower "구조 없이 완성된 코드 줘") direct_answer_patterns = true ∧
    containsAny (pyLower "구조 없이 완성된 코드 줘") hint_keywords = false ∧
    quick_answer_detection "구조 없이 완성된 코드 줘" (some ⟨"10", "", []⟩) [] = none ∧
    intent_analyzer_entry (some "구조 없이 완성된 코드 줘") ⟨"10", "", []⟩ [] =
      IntentDecision.deferToLLM :=
  ⟨by decide, by decide, by decide, by decide⟩

/-- Claim C3 (amended): every nonempty message that contains a hard block
pattern, contains no hint-intent word, and does not satisfy rule 1's
structural-pass condition is blocked by Layer 1 with
`block_reason = DIRECT_ANSWER`, and the node answers
`intent_status = FAILED_GUARDRAIL` without reaching the LLM — for any
problem context and history. -/
theorem hard_block_rule (m : String) (ctx : ProblemContextInfo) (hist : List String)
    (hpat : containsAny (pyLower m) direct_answer_patterns = true)
    (hhint : containsAny (pyLower m) hint_keywords = false)
    (hnostruct : (containsAny (pyLower m) safe_structural_keywords &&
        !containsAny (pyLower m) structural_rule_block_keywords) = false)
    (hne : m ≠ "") :
    quick_answer_detection m (some ctx) hist =
      some { status := "BLOCKED", block_reason := "DIRECT_ANSWER",
             is_submission_request := false, guardrail_passed := false,
             violation_message := "정답 코드 요청 패턴 감지" } ∧
    intent_analyzer_entry (some m) ctx hist =
      IntentDecision.blockedL1 "FAILED_GUARDRAIL" true "정답 코드 요청 패턴 감지" false := by
  have hq : quick_answer_detection m (some ctx) hist =
      some { status := "BLOCKED", block_reason := "DIRECT_ANSWER",
             is_submission_request := false, guardrail_passed := false,
             violation_message := "정답 코드 요청 패턴 감지" } := by
    simp [quick_answer_detection, quick_rules_2_to_5, hnostruct, hpat, hhint]
  refine ⟨hq, ?_⟩
  simp [intent_analyzer_entry, hne, hq]

/-- Witness for C3: the spec's E1 message `"TSP 정답 코드 알려줘"` is
blocked by Layer 1 with `FAILED_GUARDRAIL`. -/
theorem hard_block_rule_witness :
    intent_analyzer_entry (some "TSP 정답 코드 알려줘") ⟨"10", "", []⟩ [] =
      IntentDecision.blockedL1 "FAILED_GUARDRAIL" true "정답 코드 요청 패턴 감지" false :=
  (hard_block_rule "TSP 정답 코드 알려줘" ⟨"10", "", []⟩ []
    (by decide) (by decide) (by decide) (by decide)).2

/-- Claim C4: Layer-1 rules apply in order with first match winning, and
rule 1 passes (returns no block decision, deferring to the Layer-2 LLM)
exactly those messages containing a structural keyword and none of the
direct-answer words 정답/풀이/answer/solution; on all other messages the
decision is exactly that of the remaining rules 2–5. -/
theorem rule1_pass_characterization (m : String)
    (ctx : Option ProblemContextInfo) (hist : List String) :
    (((∃ kw ∈ safe_structural_keywords, strContains (pyLower m) kw = true) ∧
      (∀ kw ∈ structural_rule_block_keywords, strContains (pyLower m) kw = false)) →
      quick_answer_detection m ctx hist = none) ∧
    (¬ ((∃ kw ∈ safe_structural_keywords, strContains (pyLower m) kw = true) ∧
        (∀ kw ∈ structural_rule_block_keywords, strContains (pyLower m) kw = false)) →
      quick_answer_detection m ctx hist = quick_rules_2_to_5 (pyLower m) ctx hist) := by
  have h1 : containsAny (pyLower m) safe_structural_keywords = true ↔
      (∃ kw ∈ safe_structural_keywords, strContains (pyLower m) kw = true) := by
    simp [containsAny, List.any_eq_true]
  have h2 : containsAny (pyLower m) structural_rule_block_keywords = false ↔
      (∀ kw ∈ structural_rule_block_keywords, strContains (pyLower m) kw = false) := by
    simp [containsAny, List.any_eq_false]
  constructor
  · rintro ⟨he, hb⟩
    simp [quick_answer_detection, h1.mpr he, h2.mpr hb]
  · intro hn
    rcases Bool.eq_false_or_eq_true
        (containsAny (pyLower m) safe_structural_keywords) with hA | hA
    case inr => simp [quick_answer_detection, hA]
    case inl =>
      have hB : containsAny (pyLower m) structural_rule_block_keywords = true := by
          by_contra hB
          have hB' : containsAny (pyLower m) structural_rule_block_keywords = false :=
            Bool.eq_false_iff.mpr hB
          exact hn ⟨h1.mp hA, h2.mp hB'⟩
      simp [quick_answer_detection, hA, hB]

/-- Witness for C4: `"구조만 잡아줘"` holds a structural keyword and no
direct-answer word, so Layer 1 passes it. -/
theorem rule1_pass_characterization_witness :
    quick_answer_detection "구조만 잡아줘" none [] = none :=
  (rule1_pass_characterization "구조만 잡아줘" none []).1 (by decide)

/-- Counterexample to C5 as stated: with `max_calls = 1`, `period = 60` and
arrivals at 0, 0.5 and 59, the two delayed calls both execute at t = 60 —
two admitted executions inside one 60-second window, exceeding the claimed
bound of at most `max_calls` admitted calls per period (delayed calls are
never recorded into the window). -/
theorem rate_limiter_window_bound_violated :
    run_rate_limited 1 60 [0, 1/2, 59] = [0, 60, 60] ∧
    countInWindow 60 (run_rate_limited 1 60 [0, 1/2, 59]) 30 = 2 ∧
    1 < countInWindow 60 (run_rate_limited 1 60 [0, 1/2, 59]) 30 := by
  have h : run_rate_limited 1 60 [0, 1/2, 59] = [0, 60, 60] := by
    norm_num [run_rate_limited, rate_limited_call, check_rate_limit,
      clean_old_calls, List.foldl, List.filter, List.min?]
  refine ⟨h, ?_, ?_⟩ <;> rw [h] <;> norm_num [countInWindow, List.filter]

/-- Claim C5 (amended): no call is dropped (every arrival yields exactly one
execution); an over-limit call is delayed until the oldest recorded call
expires (it executes at `oldest + period`, and the window is left
unchanged — the delayed call is not recorded); an under-limit call runs
immediately and is recorded.  The claimed at-most-`max_calls`-per-period
bound on executions is NOT enforced (see the counterexample). -/
theorem rate_limiter_delays_never_drops :
    (∀ (max_calls : ℕ) (period : ℚ) (arrivals : List ℚ),
        (run_rate_limited max_calls period arrivals).length = arrivals.length) ∧
    (∀ (max_calls : ℕ) (period : ℚ) (history : List ℚ) (now oldest : ℚ),
        (clean_old_calls period history now).min? = some oldest →
        max_calls ≤ (clean_old_calls period history now).length →
        rate_limited_call max_calls period history now =
          (oldest + period, clean_old_calls period history now)) ∧
    (∀ (max_calls : ℕ) (period : ℚ) (history : List ℚ) (now : ℚ),
        (clean_old_calls period history now).length < max_calls →
        rate_limited_call max_calls period history now =
          (now, clean_old_calls period history now ++ [now])) := by
  refine ⟨?_, ?_, ?_⟩
  · intro mc period arrivals
    simpa using run_rate_limited_go_length mc period arrivals ([], [])
  · intro mc period history now oldest hmin hfull
    have hmem : oldest ∈ clean_old_calls period history now :=
      List.min?_mem (fun a b => min_choice a b) hmin
    have hrecent : now - period < oldest := by
      have := List.of_mem_filter hmem
      exact of_decide_eq_true this
    have hwait : 0 < period - (now - oldest) := by linarith
    unfold rate_limited_call check_rate_limit
    rw [if_pos hfull, hmin]
    simp only [if_pos hwait, Prod.mk.injEq]
    exact ⟨by ring, trivial⟩
  · intro mc period history now hroom
    have : ¬ (mc ≤ (clean_old_calls period history now).length) := by omega
    unfold rate_limited_call check_rate_limit
    rw [if_neg this]
    simp

/-- Witness for C5: a second call half a second after the first, with a
full window of one call per minute, executes when the first call is 60
seconds old. -/
theorem rate_limiter_delays_never_drops_witness :
    rate_limited_call 1 60 [0] (1/2) = (0 + 60, clean_old_calls 60 [0] (1/2)) :=
  rate_limiter_delays_never_drops.2.1 1 60 [0] (1/2) 0
    (by norm_num [clean_old_calls, List.min?])
    (by norm_num [clean_old_calls])

/-- Claim C6: the retry middleware retries (below the attempt cap) exactly
when the exception class matches the configured classes or the lowercased
message mentions rate/quota/timeout; every computed backoff delay is
clamped to `max_delay`; and when all `max_retries + 1` attempts fail on
retryable errors the last exception is re-raised unchanged. -/
theorem retry_middleware_contract :
    (∀ (max_retries : ℕ) (class_match : PyException → Bool)
        (e : PyException) (attempt : ℕ), attempt < max_retries →
        (should_retry max_retries class_match e attempt = true ↔
          class_match e = true ∨
          containsAny (pyLower e.message) retry_error_keywords = true)) ∧
    (∀ (strategy : String) (initial_delay max_delay : ℚ) (attempt : ℕ),
        calculate_delay strategy initial_delay max_delay attempt ≤ max_delay) ∧
    (∀ (max_retries : ℕ) (class_match : PyException → Bool)
        (chain : ℕ → Except PyException String) (errs : ℕ → PyException),
        (∀ i, chain i = Except.error (errs i)) →
        (∀ i, class_match (errs i) = true) →
        retry_run max_retries class_match chain =
          Except.error (errs max_retries)) := by
  refine ⟨?_, ?_, ?_⟩
  · intro mr cm e attempt hlt
    have : ¬ (mr ≤ attempt) := by omega
    cases hcm : cm e <;> simp [should_retry, this, hcm]
  · intro strategy d mx attempt
    exact min_le_right _ _
  · intro mr cm chain errs hfail hmatch
    exact retry_loop_all_fail cm chain errs hfail hmatch mr 0 mr (by omega)

/-- Witness for C6: a chain that always raises a rate-limit error exhausts
2 retries and the last exception is re-raised. -/
theorem retry_middleware_contract_witness :
    retry_run 2 (fun _ => true)
        (fun _ => (Except.error ⟨"rate limit"⟩ : Except PyException String)) =
      Except.error ⟨"rate limit"⟩ :=
  retry_middleware_contract.2.2 2 (fun _ => true)
    (fun _ => Except.error ⟨"rate limit"⟩) (fun _ => ⟨"rate limit"⟩)
    (fun _ => rfl) (fun _ => rfl)

/-- Claim C7: for every exception escaping the writer's LLM chain, the node
returns a structured update with `ai_message = None`, the error text
recorded, and `writer_status` classified from the lowercased message:
rate/quota → `FAILED_RATE_LIMIT`; else context/token →
`FAILED_THRESHOLD`; else `FAILED_TECHNICAL`. -/
theorem writer_exception_taxonomy (e : String) :
    (writer_on_exception e).ai_message = none ∧
    (writer_on_exception e).writer_error = e ∧
    ((strContains (pyLower e) "rate" || strContains (pyLower e) "quota") = true →
      (writer_on_exception e).writer_status = WriterStatus.FAILED_RATE_LIMIT) ∧
    ((strContains (pyLower e) "rate" || strContains (pyLower e) "quota") = false →
     (strContains (pyLower e) "context" || strContains (pyLower e) "token") = true →
      (writer_on_exception e).writer_status = WriterStatus.FAILED_THRESHOLD) ∧
    ((strContains (pyLower e) "rate" || strContains (pyLower e) "quota") = false →
     (strContains (pyLower e) "context" || strContains (pyLower e) "token") = false →
      (writer_on_exception e).writer_status = WriterStatus.FAILED_TECHNICAL) := by
  refine ⟨rfl, rfl, ?_, ?_, ?_⟩
  · intro h₁; simp [writer_on_exception, h₁]
  · intro h₁ h₂; simp [writer_on_exception, h₁, h₂]
  · intro h₁ h₂; simp [writer_on_exception, h₁, h₂]

/-- Witness for C7: a rate-limit exception is classified `FAILED_RATE_LIMIT`. -/
theorem writer_exception_taxonomy_witness :
    (writer_on_exception "Rate limit exceeded").writer_status =
      WriterStatus.FAILED_RATE_LIMIT :=
  (writer_exception_taxonomy "Rate limit exceeded").2.2.1 (by decide)

/-- Claim C8: `save_message` with an explicit turn whose `(session, turn,
role)` already exists in the durable store is a no-op: the store is
unchanged and the existing row's id is returned with success. -/
theorem save_message_duplicate_is_noop (db : List StoredMessage)
    (next_id session t : ℕ) (role : PromptRole) (content : String)
    (existing : StoredMessage)
    (h : db.find? (fun m =>
        m.session_id == session && m.turn == t && m.role == role) = some existing) :
    save_message db next_id session (some t) role content =
      (db, { session_id := session, message_id := existing.id,
             turn := existing.turn, success := true }) := by
  simp [save_message, h]

/-- Witness for C8: re-saving turn 1 of session 7 returns the stored id 1
and leaves the store unchanged. -/
theorem save_message_duplicate_is_noop_witness :
    save_message [⟨1, 7, 1, PromptRole.USER, "hi"⟩] 2 7 (some 1) PromptRole.USER "again" =
      ([⟨1, 7, 1, PromptRole.USER, "hi"⟩],
       { session_id := 7, message_id := 1, turn := 1, success := true }) :=
  save_message_duplicate_is_noop [⟨1, 7, 1, PromptRole.USER, "hi"⟩] 2 7 1
    PromptRole.USER "again" ⟨1, 7, 1, PromptRole.USER, "hi"⟩ (by decide)

/-- Claim C9: on a guardrail-failed turn, the TurnLog aggregation forces
`turn_score = 0`, whatever the rubric evaluators' averages were. -/
theorem guardrail_forces_zero_turn_score (eval_slots : List (Option ℚ)) :
    (aggregate_turn_log eval_slots true).turn_score = 0 := by
  norm_num [aggregate_turn_log, round2, roundHalfEven]

/-- Claim C10: an empty (or missing) user message makes the intent analyzer
return `intent_status = PASSED_HINT` with `is_guardrail_failed = False`,
before either the keyword prefilter or the LLM classifier is consulted. -/
theorem empty_message_passes_hint (msg : Option String)
    (ctx : ProblemContextInfo) (hist : List String)
    (h : msg = none ∨ msg = some "") :
    intent_analyzer_entry msg ctx hist =
      IntentDecision.emptyPass "PASSED_HINT" false := by
  rcases h with h | h <;> subst h <;> simp [intent_analyzer_entry]

/-- Witness for C10: a missing message short-circuits to `PASSED_HINT`. -/
theorem empty_message_passes_hint_witness :
    intent_analyzer_entry none ⟨"10", "", []⟩ [] =
      IntentDecision.emptyPass "PASSED_HINT" false :=
  empty_message_passes_hint none ⟨"10", "", []⟩ [] (Or.inl rfl)
